import Mathlib

/-!
Verification of the nvsmi parsing-and-query engine (`nvsmi.py`).

The Python source is shallowly embedded: Python floats are modelled by
`PyFloat` (a rational together with the IEEE specials `nan`, `inf`, `-inf`),
Python's `str.split(", ")`, `float(str)` and `int(str)` are modelled as
executable functions on character lists, and each fallible Python function
(one that may raise) returns `Except PyError _`.  The subprocess calls that
obtain the raw nvidia-smi text are out of scope; the parsed GPU list is a
parameter wherever the source obtains it via `get_gpus()`.
-/

/-- Model of a CPython `float` value as used by `nvsmi.py`: either the
not-a-number sentinel, one of the two infinities, or a finite value
(modelled as a rational; IEEE rounding plays no role in the claims). -/
inductive PyFloat : Type where
  | nan : PyFloat
  | inf : PyFloat
  | ninf : PyFloat
  | num (q : ℚ) : PyFloat
deriving DecidableEq

/-- Python `<=` on floats: any comparison involving `nan` is `False`;
otherwise `-inf <= everything <= inf` and finite values compare as numbers. -/
def PyFloat.le : PyFloat → PyFloat → Bool
  | PyFloat.nan, _ => false
  | _, PyFloat.nan => false
  | PyFloat.ninf, _ => true
  | PyFloat.inf, PyFloat.inf => true
  | PyFloat.inf, _ => false
  | _, PyFloat.inf => true
  | PyFloat.num _, PyFloat.ninf => false
  | PyFloat.num p, PyFloat.num q => decide (p ≤ q)

/-- Python `>=` on floats, written as in the source (`a >= b`). -/
def PyFloat.ge (a b : PyFloat) : Bool := PyFloat.le b a

/-- Python `*` on floats (signed zeros are not modelled; `nvsmi.py` only
multiplies a ratio by the literal `100`). -/
def PyFloat.mul : PyFloat → PyFloat → PyFloat
  | PyFloat.nan, _ => PyFloat.nan
  | _, PyFloat.nan => PyFloat.nan
  | PyFloat.inf, PyFloat.inf => PyFloat.inf
  | PyFloat.inf, PyFloat.ninf => PyFloat.ninf
  | PyFloat.ninf, PyFloat.inf => PyFloat.ninf
  | PyFloat.ninf, PyFloat.ninf => PyFloat.inf
  | PyFloat.inf, PyFloat.num q =>
      if q = 0 then PyFloat.nan else if 0 < q then PyFloat.inf else PyFloat.ninf
  | PyFloat.num q, PyFloat.inf =>
      if q = 0 then PyFloat.nan else if 0 < q then PyFloat.inf else PyFloat.ninf
  | PyFloat.ninf, PyFloat.num q =>
      if q = 0 then PyFloat.nan else if 0 < q then PyFloat.ninf else PyFloat.inf
  | PyFloat.num q, PyFloat.ninf =>
      if q = 0 then PyFloat.nan else if 0 < q then PyFloat.ninf else PyFloat.inf
  | PyFloat.num p, PyFloat.num q =>
      PyFloat.num (Rat.divInt (p.num * q.num) ((p.den : ℤ) * (q.den : ℤ)))

/-- Python `/` on floats.  CPython raises `ZeroDivisionError` whenever the
divisor is (plus or minus) zero, for every numerator including `nan`;
this is modelled by returning `none`.  All other divisions succeed, with
`nan` propagating and the usual IEEE conventions for infinities. -/
def PyFloat.div (a b : PyFloat) : Option PyFloat :=
  match b with
  | PyFloat.nan => some PyFloat.nan
  | PyFloat.inf =>
      match a with
      | PyFloat.num _ => some (PyFloat.num 0)
      | _ => some PyFloat.nan
  | PyFloat.ninf =>
      match a with
      | PyFloat.num _ => some (PyFloat.num 0)
      | _ => some PyFloat.nan
  | PyFloat.num q =>
      if q = 0 then none
      else
        match a with
        | PyFloat.nan => some PyFloat.nan
        | PyFloat.inf => some (if 0 < q then PyFloat.inf else PyFloat.ninf)
        | PyFloat.ninf => some (if 0 < q then PyFloat.ninf else PyFloat.inf)
        | PyFloat.num p => some (PyFloat.num (Rat.divInt (p.num * (q.den : ℤ)) ((p.den : ℤ) * q.num)))

/-- Numeric value of a list of decimal digit characters. -/
def digitsVal (ds : List Char) : ℕ :=
  ds.foldl (fun n c => 10 * n + (c.toNat - 48)) 0

/-- Parse the mantissa part of a Python float literal: digits with an
optional decimal point, at least one digit present.  Returns the combined
digit value together with the number of fractional digits, so that the
mantissa denotes `value / 10 ^ scale`. -/
def parseMantissa (cs : List Char) : Option (ℕ × ℕ) :=
  let ip := cs.takeWhile (fun c => c.isDigit)
  let rest := cs.dropWhile (fun c => c.isDigit)
  match rest with
  | [] => if ip.isEmpty then none else some (digitsVal ip, 0)
  | '.' :: fp =>
      if fp.all (fun c => c.isDigit) && !(ip.isEmpty && fp.isEmpty) then
        some (digitsVal (ip ++ fp), fp.length)
      else none
  | _ => none

/-- Parse the exponent part of a Python float literal: optional sign, then
one or more digits. -/
def parseExponent (cs : List Char) : Option ℤ :=
  match cs with
  | '+' :: ds =>
      if ds.isEmpty || !ds.all Char.isDigit then none else some (digitsVal ds)
  | '-' :: ds =>
      if ds.isEmpty || !ds.all Char.isDigit then none else some (-(digitsVal ds : ℤ))
  | ds =>
      if ds.isEmpty || !ds.all Char.isDigit then none else some (digitsVal ds)

/-- The rational `m.1 / 10 ^ m.2 * 10 ^ e` denoted by a mantissa and an
exponent. -/
def mantExpVal (m : ℕ × ℕ) (e : ℤ) : ℚ :=
  let k : ℤ := e - (m.2 : ℤ)
  if 0 ≤ k then ((m.1 * 10 ^ k.toNat : ℕ) : ℚ) else mkRat (m.1 : ℤ) (10 ^ (-k).toNat)

/-- Parse an unsigned Python float literal: mantissa with an optional
`e`-exponent (the input has already been lowercased). -/
def parseNumber (cs : List Char) : Option ℚ :=
  let mant := cs.takeWhile (fun c => c != 'e')
  let rest := cs.dropWhile (fun c => c != 'e')
  match rest with
  | [] => (parseMantissa mant).map fun m => mantExpVal m 0
  | _ :: ex => do
      let m ← parseMantissa mant
      let e ← parseExponent ex
      some (mantExpVal m e)

/-- The characters Python's `str.strip()` removes by default. -/
def isPySpace (c : Char) : Bool :=
  c = ' ' || c = '\t' || c = '\n' || c = '\r' || c = '\x0b' || c = '\x0c'

/-- Strip leading and trailing whitespace from a character list. -/
def trimChars (cs : List Char) : List Char :=
  ((cs.dropWhile isPySpace).reverse.dropWhile isPySpace).reverse

/-- ASCII lowercasing of a character list. -/
def lowerChars (cs : List Char) : List Char :=
  cs.map Char.toLower

/-- Modelled from CPython `float(str)`: surrounding whitespace is stripped,
an optional sign is read, then either `inf`, `infinity` or `nan`
(case-insensitive) or a decimal literal with optional fraction and exponent.
`none` models `ValueError`.  (Underscore digit separators are not modelled.) -/
def pyFloat? (s : String) : Option PyFloat :=
  let t := lowerChars (trimChars s.toList)
  let neg : Bool :=
    match t with
    | '-' :: _ => true
    | _ => false
  let body : List Char :=
    match t with
    | '+' :: r => r
    | '-' :: r => r
    | r => r
  if body = "inf".toList ∨ body = "infinity".toList then
    some (if neg then PyFloat.ninf else PyFloat.inf)
  else if body = "nan".toList then
    some PyFloat.nan
  else
    (parseNumber body).map fun q => PyFloat.num (if neg then -q else q)

/-- `to_float_or_inf` from the source: `float(value)`, with the `ValueError`
raised on an unparseable token (such as the literal `N/A`) recovered by
substituting the not-a-number sentinel.  It never fails. -/
def to_float_or_inf (value : String) : PyFloat :=
  match pyFloat? value with
  | some number => number
  | none => PyFloat.nan

/-- Modelled from CPython `int(str)`: surrounding whitespace is stripped,
then an optional sign and one or more decimal digits.  `none` models
`ValueError`. -/
def pyInt? (s : String) : Option ℤ :=
  match trimChars s.toList with
  | '+' :: ds => if ds.isEmpty || !ds.all Char.isDigit then none else some (digitsVal ds)
  | '-' :: ds => if ds.isEmpty || !ds.all Char.isDigit then none else some (-(digitsVal ds : ℤ))
  | ds => if ds.isEmpty || !ds.all Char.isDigit then none else some (digitsVal ds)

/-- Modelled from Python `str.split(", ")` on character lists: non-overlapping
left-to-right splitting on the two-character separator; the empty input
yields one empty field, never an empty list. -/
def splitCommaSpace : List Char → List (List Char)
  | [] => [[]]
  | ',' :: ' ' :: rest => [] :: splitCommaSpace rest
  | c :: rest =>
      match splitCommaSpace rest with
      | [] => [[c]]
      | field :: fields => (c :: field) :: fields

/-- `line.split(", ")` as it appears in `get_gpu` and `get_gpu_proc`. -/
def splitLine (line : String) : List String :=
  (splitCommaSpace line.toList).map String.mk

/-- The Python exceptions the parsing layer can raise. -/
inductive PyError : Type where
  | indexError : PyError
  | zeroDivisionError : PyError
  | valueError : PyError
deriving DecidableEq

/-- Python `values[i]` on a list (for the nonnegative literal indices the
source uses): the element when `i` is in range, `IndexError` otherwise. -/
def pyIndex (values : List String) (i : ℕ) : Except PyError String :=
  match values, i with
  | [], _ => Except.error PyError.indexError
  | v :: _, 0 => Except.ok v
  | _ :: vs, i + 1 => pyIndex vs i

/-- Python `int(token)`: `ValueError` on a non-integer token. -/
def pyIntOrValueError (s : String) : Except PyError ℤ :=
  match pyInt? s with
  | some n => Except.ok n
  | none => Except.error PyError.valueError

instance exceptDecEq {ε α : Type} [DecidableEq ε] [DecidableEq α] :
    DecidableEq (Except ε α) := fun x y =>
  match x, y with
  | Except.ok a, Except.ok b =>
      if h : a = b then Decidable.isTrue (by rw [h])
      else Decidable.isFalse (by intro he; cases he; exact h rfl)
  | Except.error e, Except.error f =>
      if h : e = f then Decidable.isTrue (by rw [h])
      else Decidable.isFalse (by intro he; cases he; exact h rfl)
  | Except.ok _, Except.error _ => Decidable.isFalse (by intro he; cases he)
  | Except.error _, Except.ok _ => Decidable.isFalse (by intro he; cases he)

/-- Whether a fallible computation succeeded (no exception was raised). -/
def parseOk {α : Type} : Except PyError α → Bool
  | Except.ok _ => true
  | Except.error _ => false

/-- The `i`-th field of a split line, defaulting to `""` out of range (used
only to state theorems about particular fields). -/
def fieldAt (values : List String) (i : ℕ) : String :=
  match pyIndex values i with
  | Except.ok v => v
  | Except.error _ => ""

/-- The `GPU` record of the source: one device at the moment of sampling. -/
structure GPU : Type where
  id : String
  uuid : String
  gpu_util : PyFloat
  mem_util : PyFloat
  mem_total : PyFloat
  mem_used : PyFloat
  mem_free : PyFloat
  driver : String
  name : String
  serial : String
  display_mode : String
  display_active : String
  temperature : PyFloat
deriving DecidableEq

/-- `GPU.__init__`: stores the given fields and computes
`mem_util = float(mem_used) / float(mem_total) * 100` at construction time.
The division raises `ZeroDivisionError` when `mem_total` is zero. -/
def GPU.init (id uuid : String) (gpu_util mem_total mem_used mem_free : PyFloat)
    (driver gpu_name serial display_mode display_active : String)
    (temperature : PyFloat) : Except PyError GPU :=
  match PyFloat.div mem_used mem_total with
  | none => Except.error PyError.zeroDivisionError
  | some r =>
      Except.ok
        { id := id
          uuid := uuid
          gpu_util := gpu_util
          mem_util := PyFloat.mul r (PyFloat.num 100)
          mem_total := mem_total
          mem_used := mem_used
          mem_free := mem_free
          driver := driver
          name := gpu_name
          serial := serial
          display_mode := display_mode
          display_active := display_active
          temperature := temperature }

/-- Body of `get_gpu` after the split: positional field extraction (raising
`IndexError` past the end), coercion of fields 2-5 and 11, and record
construction.  Factored out of `get_gpu` so that the field list can be
reasoned about directly. -/
def get_gpu_of_values (values : List String) : Except PyError GPU := do
  let id ← pyIndex values 0
  let uuid ← pyIndex values 1
  let gpu_util := to_float_or_inf (← pyIndex values 2)
  let mem_total := to_float_or_inf (← pyIndex values 3)
  let mem_used := to_float_or_inf (← pyIndex values 4)
  let mem_free := to_float_or_inf (← pyIndex values 5)
  let driver ← pyIndex values 6
  let gpu_name ← pyIndex values 7
  let serial ← pyIndex values 8
  let display_active ← pyIndex values 9
  let display_mode ← pyIndex values 10
  let temp_gpu := to_float_or_inf (← pyIndex values 11)
  GPU.init id uuid gpu_util mem_total mem_used mem_free driver gpu_name serial
    display_mode display_active temp_gpu

/-- `get_gpu` from the source: split one line on `", "` and build the record. -/
def get_gpu (line : String) : Except PyError GPU :=
  get_gpu_of_values (splitLine line)

/-- A dynamically-typed Python value: the `gpu_id` attribute of a process
record is either a string taken from the correlation map or the integer
sentinel `-1`. -/
inductive PyVal : Type where
  | str (s : String) : PyVal
  | int (n : ℤ) : PyVal
deriving DecidableEq

/-- The `GPUProcess` record of the source. -/
structure GPUProcess : Type where
  pid : ℤ
  process_name : String
  gpu_id : PyVal
  gpu_uuid : String
  gpu_name : String
  used_memory : PyFloat
deriving DecidableEq

/-- Body of `get_gpu_proc` after the split: pid is parsed as an integer
(`ValueError` on failure), used-memory is coerced, and the GPU index is the
correlation-map entry for the line's UUID, or `-1` when absent. -/
def get_gpu_proc_of_values (values : List String)
    (gpu_uuid_to_id_map : List (String × String)) : Except PyError GPUProcess := do
  let pidTok ← pyIndex values 0
  let pid ← pyIntOrValueError pidTok
  let process_name ← pyIndex values 1
  let gpu_uuid ← pyIndex values 2
  let gpu_name ← pyIndex values 3
  let used_memory := to_float_or_inf (← pyIndex values 4)
  let gpu_id :=
    match gpu_uuid_to_id_map.lookup gpu_uuid with
    | some v => PyVal.str v
    | none => PyVal.int (-1)
  Except.ok
    { pid := pid
      process_name := process_name
      gpu_id := gpu_id
      gpu_uuid := gpu_uuid
      gpu_name := gpu_name
      used_memory := used_memory }

/-- `get_gpu_proc` from the source. -/
def get_gpu_proc (line : String) (gpu_uuid_to_id_map : List (String × String)) :
    Except PyError GPUProcess :=
  get_gpu_proc_of_values (splitLine line) gpu_uuid_to_id_map

/-- `is_gpu_available` from the source: the conjunction of the five
availability criteria, written with Python's `and` chain. -/
def is_gpu_available (gpu : GPU) (gpu_util_max mem_util_max mem_free_min : PyFloat)
    (exclude_ids exclude_uuids : List String) : Bool :=
  true
  && PyFloat.le gpu.gpu_util gpu_util_max
  && PyFloat.le gpu.mem_util mem_util_max
  && PyFloat.ge gpu.mem_free mem_free_min
  && !(exclude_ids.contains gpu.id)
  && !(exclude_uuids.contains gpu.uuid)

/-- The keyword parameters of `get_available_gpus`, with the source's
default values (`gpu_util_max=1.0`, `mem_util_max=1.0`, `mem_free_min=0`,
`exclude_ids=None`, `exclude_uuids=None`). -/
structure AvailOpts : Type where
  gpu_util_max : PyFloat := PyFloat.num 1
  mem_util_max : PyFloat := PyFloat.num 1
  mem_free_min : PyFloat := PyFloat.num 0
  exclude_ids : Option (List String) := none
  exclude_uuids : Option (List String) := none
deriving DecidableEq

/-- `get_available_gpus` from the source, with the snapshot obtained by
`get_gpus()` abstracted into the `gpus` parameter (the subprocess call is
out of scope).  `None` exclusion lists are normalized to empty, and
`itertools.compress` with the pointwise selectors is `List.filter`. -/
def get_available_gpus (gpus : List GPU) (opts : AvailOpts) : List GPU :=
  let exclude_ids := opts.exclude_ids.getD []
  let exclude_uuids := opts.exclude_uuids.getD []
  gpus.filter fun gpu =>
    is_gpu_available gpu opts.gpu_util_max opts.mem_util_max opts.mem_free_min
      exclude_ids exclude_uuids

/-- Python `<=` on strings: lexicographic comparison by code point. -/
def pyStrLe : List Char → List Char → Bool
  | [], _ => true
  | _ :: _, [] => false
  | a :: as, b :: bs =>
      if a.toNat < b.toNat then true
      else if b.toNat < a.toNat then false
      else pyStrLe as bs

/-- The three values of the `--sort` option. -/
inductive SortKey : Type where
  | id : SortKey
  | gpu_util : SortKey
  | mem_util : SortKey
deriving DecidableEq

/-- The sort-key comparison used by `gpus.sort(key=attrgetter(args.sort))`:
string ids compare lexicographically, the two utilization keys compare with
Python float comparison. -/
def sortKeyLe : SortKey → GPU → GPU → Prop
  | SortKey.id, a, b => pyStrLe a.id.toList b.id.toList = true
  | SortKey.gpu_util, a, b => PyFloat.le a.gpu_util b.gpu_util = true
  | SortKey.mem_util, a, b => PyFloat.le a.mem_util b.mem_util = true

instance sortKeyLeDec (key : SortKey) : DecidableRel (sortKeyLe key) := fun a b =>
  match key with
  | SortKey.id => inferInstanceAs (Decidable (pyStrLe a.id.toList b.id.toList = true))
  | SortKey.gpu_util => inferInstanceAs (Decidable (PyFloat.le a.gpu_util b.gpu_util = true))
  | SortKey.mem_util => inferInstanceAs (Decidable (PyFloat.le a.mem_util b.mem_util = true))

/-- `gpus.sort(key=attrgetter(key))`: Python's `list.sort` is a stable
ascending sort, modelled by the (stable) insertion sort. -/
def sortGpus (key : SortKey) (gpus : List GPU) : List GPU :=
  List.insertionSort (sortKeyLe key) gpus

/-- `take` from the source: `itertools.islice(iterable, n)` keeps the first
`n` items. -/
def take {α : Type} (n : ℕ) (iterable : List α) : List α :=
  List.take n iterable

/-- The `ls` branch of `main`: filter, then sort by the chosen key, then
limit. -/
def ls_sorted_limited (gpus : List GPU) (opts : AvailOpts) (key : SortKey)
    (limit : ℕ) : List GPU :=
  take limit (sortGpus key (get_available_gpus gpus opts))

/-- The worked GPU line of the specification. -/
def exLine : String :=
  "0, GPU-abc, 5, 8000, 2000, 6000, 450.1, Tesla, SN1, Enabled, Disabled, 60"

/-- The record `get_gpu` produces for `exLine`. -/
def exGpu : GPU :=
  { id := "0", uuid := "GPU-abc", gpu_util := PyFloat.num 5, mem_util := PyFloat.num 25,
    mem_total := PyFloat.num 8000, mem_used := PyFloat.num 2000, mem_free := PyFloat.num 6000,
    driver := "450.1", name := "Tesla", serial := "SN1", display_mode := "Disabled",
    display_active := "Enabled", temperature := PyFloat.num 60 }

/-- `exLine` with the memory-total field replaced by `0`. -/
def zeroTotalLine : String :=
  "0, GPU-abc, 5, 0, 2000, 6000, 450.1, Tesla, SN1, Enabled, Disabled, 60"

/-- `exLine` with a thirteenth field appended. -/
def extraFieldLine : String :=
  "0, GPU-abc, 5, 8000, 2000, 6000, 450.1, Tesla, SN1, Enabled, Disabled, 60, EXTRA"

/-- A GPU record differing from `exGpu` only in its id. -/
def gpuId2 : GPU := { exGpu with id := "2" }

/-- A GPU record differing from `exGpu` only in its id. -/
def gpuId10 : GPU := { exGpu with id := "10" }

/-- `exGpu` with an unavailable (`N/A`-coerced) compute utilization. -/
def gpuNanUtil : GPU := { exGpu with gpu_util := PyFloat.nan }

/-- `exGpu` with an unavailable memory utilization. -/
def gpuNanMemUtil : GPU := { exGpu with mem_util := PyFloat.nan }

/-- The record `get_gpu_proc` produces for `procLine` under the empty map. -/
def procRecUnmapped : GPUProcess :=
  { pid := 1234, process_name := "python", gpu_id := PyVal.int (-1),
    gpu_uuid := "GPU-abc", gpu_name := "Tesla", used_memory := PyFloat.num 512 }

/-- The worked process line of the specification. -/
def procLine : String := "1234, python, GPU-abc, Tesla, 512"

/-- The record `get_gpu_proc` produces for `procLine` under the map
`[("GPU-abc", "0")]`. -/
def procRec : GPUProcess :=
  { pid := 1234, process_name := "python", gpu_id := PyVal.str "0",
    gpu_uuid := "GPU-abc", gpu_name := "Tesla", used_memory := PyFloat.num 512 }

/-! ### Lemmas about Python float comparison, multiplication and division -/

theorem pyFloat_le_nan_left (y : PyFloat) : PyFloat.le PyFloat.nan y = false := by
  cases y <;> rfl

theorem pyFloat_le_nan_right (y : PyFloat) : PyFloat.le y PyFloat.nan = false := by
  cases y <;> rfl

theorem pyFloat_le_inf_of_le {x y : PyFloat} (h : PyFloat.le x y = true) :
    PyFloat.le x PyFloat.inf = true := by
  cases x <;> cases y <;> simp_all [PyFloat.le]

theorem pyFloat_ninf_le_of_le {x y : PyFloat} (h : PyFloat.le y x = true) :
    PyFloat.le PyFloat.ninf x = true := by
  cases x <;> cases y <;> simp_all [PyFloat.le]

theorem pyFloat_mul_nan_left (b : PyFloat) : PyFloat.mul PyFloat.nan b = PyFloat.nan := by
  cases b <;> rfl

theorem pyFloat_div_nan_right (a : PyFloat) : PyFloat.div a PyFloat.nan = some PyFloat.nan :=
  rfl

theorem pyFloat_div_eq_none_iff (a b : PyFloat) :
    PyFloat.div a b = none ↔ b = PyFloat.num 0 := by
  cases b with
  | nan => simp [PyFloat.div]
  | inf => cases a <;> simp [PyFloat.div]
  | ninf => cases a <;> simp [PyFloat.div]
  | num q =>
      by_cases hq : q = 0
      · subst hq; simp [PyFloat.div]
      · cases a <;> simp [PyFloat.div, hq]

/-! ### Lemmas about the GPU line parser -/

theorem exists_cons_twelve {α : Type} (l : List α) (h : 12 ≤ l.length) :
    ∃ v0 v1 v2 v3 v4 v5 v6 v7 v8 v9 v10 v11 rest,
      l = v0 :: v1 :: v2 :: v3 :: v4 :: v5 :: v6 :: v7 :: v8 :: v9 :: v10 :: v11 :: rest := by
  rcases l with _ | ⟨v0, l⟩; · simp at h
  rcases l with _ | ⟨v1, l⟩; · simp at h
  rcases l with _ | ⟨v2, l⟩; · simp at h
  rcases l with _ | ⟨v3, l⟩; · simp at h
  rcases l with _ | ⟨v4, l⟩; · simp at h
  rcases l with _ | ⟨v5, l⟩; · simp at h
  rcases l with _ | ⟨v6, l⟩; · simp at h
  rcases l with _ | ⟨v7, l⟩; · simp at h
  rcases l with _ | ⟨v8, l⟩; · simp at h
  rcases l with _ | ⟨v9, l⟩; · simp at h
  rcases l with _ | ⟨v10, l⟩; · simp at h
  rcases l with _ | ⟨v11, l⟩; · simp at h
  exact ⟨v0, v1, v2, v3, v4, v5, v6, v7, v8, v9, v10, v11, l, rfl⟩

theorem gpu_init_eq_ok {id uuid driver gpu_name serial dm da : String}
    {gpu_util mem_total mem_used mem_free temperature : PyFloat} {g : GPU}
    (h : GPU.init id uuid gpu_util mem_total mem_used mem_free driver gpu_name serial
      dm da temperature = Except.ok g) :
    ∃ r, PyFloat.div mem_used mem_total = some r ∧
      g = { id := id, uuid := uuid, gpu_util := gpu_util,
            mem_util := PyFloat.mul r (PyFloat.num 100), mem_total := mem_total,
            mem_used := mem_used, mem_free := mem_free, driver := driver,
            name := gpu_name, serial := serial, display_mode := dm,
            display_active := da, temperature := temperature } := by
  unfold GPU.init at h
  cases hd : PyFloat.div mem_used mem_total with
  | none => rw [hd] at h; cases h
  | some r => rw [hd] at h; cases h; exact ⟨r, rfl, rfl⟩

theorem gpu_init_ok_of_div {id uuid driver gpu_name serial dm da : String}
    {gpu_util mem_total mem_used mem_free temperature : PyFloat} {r : PyFloat}
    (hd : PyFloat.div mem_used mem_total = some r) :
    GPU.init id uuid gpu_util mem_total mem_used mem_free driver gpu_name serial
      dm da temperature =
      Except.ok { id := id, uuid := uuid, gpu_util := gpu_util,
                  mem_util := PyFloat.mul r (PyFloat.num 100), mem_total := mem_total,
                  mem_used := mem_used, mem_free := mem_free, driver := driver,
                  name := gpu_name, serial := serial, display_mode := dm,
                  display_active := da, temperature := temperature } := by
  unfold GPU.init; rw [hd]

theorem gpu_init_error_of_div {id uuid driver gpu_name serial dm da : String}
    {gpu_util mem_total mem_used mem_free temperature : PyFloat}
    (hd : PyFloat.div mem_used mem_total = none) :
    GPU.init id uuid gpu_util mem_total mem_used mem_free driver gpu_name serial
      dm da temperature = Except.error PyError.zeroDivisionError := by
  unfold GPU.init; rw [hd]

theorem get_gpu_of_values_cons (v0 v1 v2 v3 v4 v5 v6 v7 v8 v9 v10 v11 : String)
    (rest : List String) :
    get_gpu_of_values
        (v0 :: v1 :: v2 :: v3 :: v4 :: v5 :: v6 :: v7 :: v8 :: v9 :: v10 :: v11 :: rest) =
      GPU.init v0 v1 (to_float_or_inf v2) (to_float_or_inf v3) (to_float_or_inf v4)
        (to_float_or_inf v5) v6 v7 v8 v10 v9 (to_float_or_inf v11) := rfl

theorem get_gpu_of_values_short (values : List String) (h : values.length < 12) :
    get_gpu_of_values values = Except.error PyError.indexError := by
  rcases values with _ | ⟨v0, values⟩; · rfl
  rcases values with _ | ⟨v1, values⟩; · rfl
  rcases values with _ | ⟨v2, values⟩; · rfl
  rcases values with _ | ⟨v3, values⟩; · rfl
  rcases values with _ | ⟨v4, values⟩; · rfl
  rcases values with _ | ⟨v5, values⟩; · rfl
  rcases values with _ | ⟨v6, values⟩; · rfl
  rcases values with _ | ⟨v7, values⟩; · rfl
  rcases values with _ | ⟨v8, values⟩; · rfl
  rcases values with _ | ⟨v9, values⟩; · rfl
  rcases values with _ | ⟨v10, values⟩; · rfl
  rcases values with _ | ⟨v11, values⟩; · rfl
  simp only [List.length_cons] at h
  omega

/-! ### C1 -/

/-- C1 counterexample: on a valid 12-field line whose memory-total field is
`0`, `get_gpu` raises `ZeroDivisionError`; no record (with a `NaN`
memory-utilization or otherwise) is constructed, contradicting the claim
that the attribute is `NaN` whenever `mem_total` is zero. -/
theorem zero_total_raises_cex :
    to_float_or_inf (fieldAt (splitLine zeroTotalLine) 3) = PyFloat.num 0 ∧
    get_gpu zeroTotalLine = Except.error PyError.zeroDivisionError := by decide

/-- C1 (amended): every record `get_gpu` constructs carries a
memory-utilization recomputed at construction time as
`mem_used / mem_total * 100` (never taken from the source text), and that
attribute is `NaN` whenever the memory-total field is non-numeric; when the
memory-total field coerces to zero, construction instead raises
`ZeroDivisionError` and yields no record. -/
theorem mem_util_recomputed (line : String) (g : GPU) :
    (get_gpu line = Except.ok g →
      (∃ r, PyFloat.div g.mem_used g.mem_total = some r ∧
        g.mem_util = PyFloat.mul r (PyFloat.num 100)) ∧
      (g.mem_total = PyFloat.nan → g.mem_util = PyFloat.nan)) ∧
    (12 ≤ (splitLine line).length →
      to_float_or_inf (fieldAt (splitLine line) 3) = PyFloat.num 0 →
      get_gpu line = Except.error PyError.zeroDivisionError) := by
  constructor
  · intro hok
    by_cases hlen : 12 ≤ (splitLine line).length
    · obtain ⟨v0, v1, v2, v3, v4, v5, v6, v7, v8, v9, v10, v11, rest, hv⟩ :=
        exists_cons_twelve (splitLine line) hlen
      unfold get_gpu at hok
      rw [hv, get_gpu_of_values_cons] at hok
      obtain ⟨r, hr, hg⟩ := gpu_init_eq_ok hok
      subst hg
      refine ⟨⟨r, hr, rfl⟩, ?_⟩
      intro hnan
      have hnan2 : to_float_or_inf v3 = PyFloat.nan := hnan
      rw [hnan2, pyFloat_div_nan_right] at hr
      have hrn : PyFloat.nan = r := by injection hr
      show PyFloat.mul r (PyFloat.num 100) = PyFloat.nan
      rw [← hrn]
      exact pyFloat_mul_nan_left _
    · unfold get_gpu at hok
      rw [get_gpu_of_values_short _ (by omega)] at hok
      cases hok
  · intro hlen hzero
    obtain ⟨v0, v1, v2, v3, v4, v5, v6, v7, v8, v9, v10, v11, rest, hv⟩ :=
      exists_cons_twelve (splitLine line) hlen
    unfold get_gpu
    rw [hv, get_gpu_of_values_cons]
    have h3 : fieldAt (splitLine line) 3 = v3 := by rw [hv]; rfl
    rw [h3] at hzero
    exact gpu_init_error_of_div ((pyFloat_div_eq_none_iff _ _).mpr hzero)

/-- Witness for C1 at the specification's worked example and at the
zero-total line. -/
theorem mem_util_recomputed_witness :
    ((∃ r, PyFloat.div exGpu.mem_used exGpu.mem_total = some r ∧
        exGpu.mem_util = PyFloat.mul r (PyFloat.num 100)) ∧
      (exGpu.mem_total = PyFloat.nan → exGpu.mem_util = PyFloat.nan)) ∧
    get_gpu zeroTotalLine = Except.error PyError.zeroDivisionError :=
  ⟨(mem_util_recomputed exLine exGpu).1 (by decide),
   (mem_util_recomputed zeroTotalLine exGpu).2 (by decide) (by decide)⟩

/-! ### C2 -/

/-- C2 counterexample: a valid 12-field GPU line on which parsing is not
total — the zero memory-total field makes `get_gpu` raise
`ZeroDivisionError`. -/
theorem twelve_field_parse_raises_cex :
    (splitLine zeroTotalLine).length = 12 ∧
    get_gpu zeroTotalLine = Except.error PyError.zeroDivisionError := by decide

/-- C2 (amended): parsing a valid 12-field GPU line is deterministic and
total — it never raises — provided the memory-total field does not coerce
to zero; when it does, parsing raises `ZeroDivisionError`. -/
theorem parse_total_and_deterministic (line : String) :
    ((splitLine line).length = 12 →
      to_float_or_inf (fieldAt (splitLine line) 3) ≠ PyFloat.num 0 →
      ∃ g, get_gpu line = Except.ok g) ∧
    (∀ line2, line = line2 → get_gpu line = get_gpu line2) := by
  constructor
  · intro hlen hnz
    obtain ⟨v0, v1, v2, v3, v4, v5, v6, v7, v8, v9, v10, v11, rest, hv⟩ :=
      exists_cons_twelve (splitLine line) (by omega)
    unfold get_gpu
    rw [hv, get_gpu_of_values_cons]
    have h3 : fieldAt (splitLine line) 3 = v3 := by rw [hv]; rfl
    rw [h3] at hnz
    cases hd : PyFloat.div (to_float_or_inf v4) (to_float_or_inf v3) with
    | none => exact absurd ((pyFloat_div_eq_none_iff _ _).mp hd) hnz
    | some r => exact ⟨_, gpu_init_ok_of_div hd⟩
  · intro line2 he
    rw [he]

/-- Witness for C2 at the specification's worked example. -/
theorem parse_total_and_deterministic_witness :
    (∃ g, get_gpu exLine = Except.ok g) ∧ get_gpu exLine = get_gpu exLine :=
  ⟨(parse_total_and_deterministic exLine).1 (by decide) (by decide),
   (parse_total_and_deterministic exLine).2 exLine rfl⟩

/-! ### C4 -/

/-- C4 counterexample: a line with thirteen fields parses successfully —
the extra field is silently ignored rather than propagated as a hard
failure. -/
theorem extra_field_accepted_cex :
    (splitLine extraFieldLine).length = 13 ∧
    parseOk (get_gpu extraFieldLine) = true := by decide

/-- C4 (amended): a GPU line with fewer than 12 fields makes `get_gpu`
propagate a hard failure (`IndexError`) rather than produce a record, but a
line with 12 or more fields produces a record from the first 12 fields
(barring the zero-memory-total division failure) — extra fields are
silently ignored, not rejected. -/
theorem wrong_field_count (line : String) :
    ((splitLine line).length < 12 → get_gpu line = Except.error PyError.indexError) ∧
    (12 ≤ (splitLine line).length →
      to_float_or_inf (fieldAt (splitLine line) 3) ≠ PyFloat.num 0 →
      parseOk (get_gpu line) = true) := by
  constructor
  · intro h
    unfold get_gpu
    exact get_gpu_of_values_short _ h
  · intro hlen hnz
    obtain ⟨v0, v1, v2, v3, v4, v5, v6, v7, v8, v9, v10, v11, rest, hv⟩ :=
      exists_cons_twelve (splitLine line) hlen
    unfold get_gpu
    rw [hv, get_gpu_of_values_cons]
    have h3 : fieldAt (splitLine line) 3 = v3 := by rw [hv]; rfl
    rw [h3] at hnz
    cases hd : PyFloat.div (to_float_or_inf v4) (to_float_or_inf v3) with
    | none => exact absurd ((pyFloat_div_eq_none_iff _ _).mp hd) hnz
    | some r => rw [gpu_init_ok_of_div hd]; rfl

/-- Witness for C4 at a two-field line and at the thirteen-field line. -/
theorem wrong_field_count_witness :
    get_gpu "a, b" = Except.error PyError.indexError ∧
    parseOk (get_gpu extraFieldLine) = true :=
  ⟨(wrong_field_count "a, b").1 (by decide),
   (wrong_field_count extraFieldLine).2 (by decide) (by decide)⟩

/-! ### C3 -/

/-- C3 counterexample: a record that satisfies every bound the claim says
the defaults impose (compute-util and memory-util at most 100, free memory
at least 0, no exclusions) is nevertheless rejected by
`get_available_gpus` called with its defaults, because the actual default
ceilings are `1.0`, not `100`. -/
theorem default_options_cex :
    PyFloat.le exGpu.gpu_util (PyFloat.num 100) = true ∧
    PyFloat.le exGpu.mem_util (PyFloat.num 100) = true ∧
    PyFloat.ge exGpu.mem_free (PyFloat.num 0) = true ∧
    get_available_gpus [exGpu] {} = [] := by decide

/-- C3 (amended): the defaults of `get_available_gpus` are
`gpu_util_max = 1.0` and `mem_util_max = 1.0` (so only utilizations up to 1
pass, not up to 100), `mem_free_min = 0`, and both exclusion sets empty;
filtering under the defaults is the conjunction filter with those bounds. -/
theorem default_options (gpus : List GPU) :
    ({} : AvailOpts).gpu_util_max = PyFloat.num 1 ∧
    ({} : AvailOpts).mem_util_max = PyFloat.num 1 ∧
    ({} : AvailOpts).mem_free_min = PyFloat.num 0 ∧
    ({} : AvailOpts).exclude_ids = none ∧
    ({} : AvailOpts).exclude_uuids = none ∧
    get_available_gpus gpus {} =
      gpus.filter fun gpu =>
        is_gpu_available gpu (PyFloat.num 1) (PyFloat.num 1) (PyFloat.num 0) [] [] :=
  ⟨rfl, rfl, rfl, rfl, rfl, rfl⟩

/-! ### C5 -/

/-- C5: the filter stage returns exactly the records satisfying the
conjunction of the five criteria, and a record whose compute-utilization or
memory-utilization is the `NaN` sentinel is excluded because its comparison
evaluates false. -/
theorem filter_conjunction (gpus : List GPU) (opts : AvailOpts) (g : GPU)
    (gum mum mfm : PyFloat) (exi exu : List String) :
    (g ∈ get_available_gpus gpus opts ↔
      g ∈ gpus ∧
      PyFloat.le g.gpu_util opts.gpu_util_max = true ∧
      PyFloat.le g.mem_util opts.mem_util_max = true ∧
      PyFloat.ge g.mem_free opts.mem_free_min = true ∧
      g.id ∉ opts.exclude_ids.getD [] ∧
      g.uuid ∉ opts.exclude_uuids.getD []) ∧
    (g.gpu_util = PyFloat.nan → is_gpu_available g gum mum mfm exi exu = false) ∧
    (g.mem_util = PyFloat.nan → is_gpu_available g gum mum mfm exi exu = false) := by
  refine ⟨?_, fun hn => ?_, fun hn => ?_⟩
  · simp [get_available_gpus, List.mem_filter, is_gpu_available, and_assoc]
  · simp [is_gpu_available, hn, pyFloat_le_nan_left]
  · simp [is_gpu_available, hn, pyFloat_le_nan_left]

/-- Witness for C5: records with `NaN` compute- or memory-utilization fail
the availability predicate even under permissive bounds. -/
theorem filter_conjunction_witness :
    is_gpu_available gpuNanUtil (PyFloat.num 100) (PyFloat.num 100) (PyFloat.num 0) [] [] = false ∧
    is_gpu_available gpuNanMemUtil (PyFloat.num 100) (PyFloat.num 100) (PyFloat.num 0) [] [] = false :=
  ⟨(filter_conjunction [] {} gpuNanUtil (PyFloat.num 100) (PyFloat.num 100) (PyFloat.num 0)
      [] []).2.1 (by decide),
   (filter_conjunction [] {} gpuNanMemUtil (PyFloat.num 100) (PyFloat.num 100) (PyFloat.num 0)
      [] []).2.2 (by decide)⟩

/-! ### C6 -/

/-- C6: field coercion returns the parsed number when the token is a valid
number and the not-a-number sentinel otherwise (it never raises — it is a
total function), and the sentinel fails every `<=` and `>=` comparison
against any value. -/
theorem coercion_spec (s : String) (x y : PyFloat) :
    (pyFloat? s = some x → to_float_or_inf s = x) ∧
    (pyFloat? s = none → to_float_or_inf s = PyFloat.nan) ∧
    PyFloat.le PyFloat.nan y = false ∧
    PyFloat.le y PyFloat.nan = false ∧
    PyFloat.ge PyFloat.nan y = false ∧
    PyFloat.ge y PyFloat.nan = false := by
  refine ⟨fun h => ?_, fun h => ?_, pyFloat_le_nan_left y, pyFloat_le_nan_right y, ?_, ?_⟩
  · simp [to_float_or_inf, h]
  · simp [to_float_or_inf, h]
  · show PyFloat.le y PyFloat.nan = false
    exact pyFloat_le_nan_right y
  · show PyFloat.le PyFloat.nan y = false
    exact pyFloat_le_nan_left y

/-- Witness for C6 at the literal placeholder `N/A` and at a numeric token. -/
theorem coercion_spec_witness :
    to_float_or_inf "N/A" = PyFloat.nan ∧ to_float_or_inf "5" = PyFloat.num 5 :=
  ⟨(coercion_spec "N/A" PyFloat.nan PyFloat.nan).2.1 (by decide),
   (coercion_spec "5" (PyFloat.num 5) PyFloat.nan).1 (by decide)⟩

/-! ### C9 -/

theorem avail_mono_gpu_util {g : GPU} {gum mum mfm : PyFloat} {exi exu : List String}
    (h : is_gpu_available g gum mum mfm exi exu = true) :
    is_gpu_available g PyFloat.inf mum mfm exi exu = true := by
  simp only [is_gpu_available, Bool.true_and, Bool.and_eq_true] at h ⊢
  obtain ⟨⟨⟨⟨ha, hb⟩, hc⟩, hd⟩, he⟩ := h
  exact ⟨⟨⟨⟨pyFloat_le_inf_of_le ha, hb⟩, hc⟩, hd⟩, he⟩

theorem avail_mono_mem_util {g : GPU} {gum mum mfm : PyFloat} {exi exu : List String}
    (h : is_gpu_available g gum mum mfm exi exu = true) :
    is_gpu_available g gum PyFloat.inf mfm exi exu = true := by
  simp only [is_gpu_available, Bool.true_and, Bool.and_eq_true] at h ⊢
  obtain ⟨⟨⟨⟨ha, hb⟩, hc⟩, hd⟩, he⟩ := h
  exact ⟨⟨⟨⟨ha, pyFloat_le_inf_of_le hb⟩, hc⟩, hd⟩, he⟩

theorem avail_mono_mem_free {g : GPU} {gum mum mfm : PyFloat} {exi exu : List String}
    (h : is_gpu_available g gum mum mfm exi exu = true) :
    is_gpu_available g gum mum PyFloat.ninf exi exu = true := by
  simp only [is_gpu_available, Bool.true_and, Bool.and_eq_true] at h ⊢
  obtain ⟨⟨⟨⟨ha, hb⟩, hc⟩, hd⟩, he⟩ := h
  exact ⟨⟨⟨⟨ha, hb⟩, pyFloat_ninf_le_of_le hc⟩, hd⟩, he⟩

theorem avail_mono_exclude_ids {g : GPU} {gum mum mfm : PyFloat} {exi exu : List String}
    (h : is_gpu_available g gum mum mfm exi exu = true) :
    is_gpu_available g gum mum mfm [] exu = true := by
  simp only [is_gpu_available, Bool.true_and, Bool.and_eq_true] at h ⊢
  obtain ⟨⟨⟨⟨ha, hb⟩, hc⟩, hd⟩, he⟩ := h
  exact ⟨⟨⟨⟨ha, hb⟩, hc⟩, rfl⟩, he⟩

theorem avail_mono_exclude_uuids {g : GPU} {gum mum mfm : PyFloat} {exi exu : List String}
    (h : is_gpu_available g gum mum mfm exi exu = true) :
    is_gpu_available g gum mum mfm exi [] = true := by
  simp only [is_gpu_available, Bool.true_and, Bool.and_eq_true] at h ⊢
  obtain ⟨⟨⟨⟨ha, hb⟩, hc⟩, hd⟩, he⟩ := h
  exact ⟨⟨⟨⟨ha, hb⟩, hc⟩, hd⟩, rfl⟩

/-- C9: relaxing any single filter criterion to its permit-all bound
(`inf` for the two ceilings, `-inf` for the free-memory floor, the empty
set for either exclusion set) while keeping the others fixed yields a
result that contains the original result as a sublist — it never shrinks. -/
theorem filter_relax_monotone (gpus : List GPU) (opts : AvailOpts) :
    List.Sublist (get_available_gpus gpus opts)
      (get_available_gpus gpus { opts with gpu_util_max := PyFloat.inf }) ∧
    List.Sublist (get_available_gpus gpus opts)
      (get_available_gpus gpus { opts with mem_util_max := PyFloat.inf }) ∧
    List.Sublist (get_available_gpus gpus opts)
      (get_available_gpus gpus { opts with mem_free_min := PyFloat.ninf }) ∧
    List.Sublist (get_available_gpus gpus opts)
      (get_available_gpus gpus { opts with exclude_ids := none }) ∧
    List.Sublist (get_available_gpus gpus opts)
      (get_available_gpus gpus { opts with exclude_uuids := none }) :=
  ⟨List.monotone_filter_right gpus (fun _ h => avail_mono_gpu_util h),
   List.monotone_filter_right gpus (fun _ h => avail_mono_mem_util h),
   List.monotone_filter_right gpus (fun _ h => avail_mono_mem_free h),
   List.monotone_filter_right gpus (fun _ h => avail_mono_exclude_ids h),
   List.monotone_filter_right gpus (fun _ h => avail_mono_exclude_uuids h)⟩

/-! ### C10 -/

/-- C10: sorting GPU records by the index key compares the string-typed id
fields lexicographically, not numerically — a GPU with id `"10"` orders
before a GPU with id `"2"`. -/
theorem sort_by_id_lexicographic :
    gpuId10.id = "10" ∧ gpuId2.id = "2" ∧
    sortGpus SortKey.id [gpuId2, gpuId10] = [gpuId10, gpuId2] := by decide

/-! ### C7 -/

theorem pyBind_ok {α β : Type} (a : α) (f : α → Except PyError β) :
    (Except.ok a : Except PyError α) >>= f = f a := rfl

theorem pyBind_error {α β : Type} (e : PyError) (f : α → Except PyError β) :
    (Except.error e : Except PyError α) >>= f = Except.error e := rfl

theorem get_gpu_proc_ok_gpu_id (values : List String) (m : List (String × String))
    (p : GPUProcess) (h : get_gpu_proc_of_values values m = Except.ok p) :
    p.gpu_id = match m.lookup p.gpu_uuid with
               | some v => PyVal.str v
               | none => PyVal.int (-1) := by
  rcases values with _ | ⟨v0, values⟩
  · simp [get_gpu_proc_of_values, pyIndex, pyBind_error] at h
  rcases values with _ | ⟨v1, values⟩
  · cases hp : pyInt? v0 <;>
      simp [get_gpu_proc_of_values, pyIntOrValueError, pyIndex, pyBind_ok, pyBind_error, hp] at h
  rcases values with _ | ⟨v2, values⟩
  · cases hp : pyInt? v0 <;>
      simp [get_gpu_proc_of_values, pyIntOrValueError, pyIndex, pyBind_ok, pyBind_error, hp] at h
  rcases values with _ | ⟨v3, values⟩
  · cases hp : pyInt? v0 <;>
      simp [get_gpu_proc_of_values, pyIntOrValueError, pyIndex, pyBind_ok, pyBind_error, hp] at h
  rcases values with _ | ⟨v4, values⟩
  · cases hp : pyInt? v0 <;>
      simp [get_gpu_proc_of_values, pyIntOrValueError, pyIndex, pyBind_ok, pyBind_error, hp] at h
  cases hp : pyInt? v0 with
  | none =>
      simp [get_gpu_proc_of_values, pyIntOrValueError, pyIndex, pyBind_ok, pyBind_error, hp] at h
  | some n =>
      simp [get_gpu_proc_of_values, pyIntOrValueError, pyIndex, pyBind_ok, pyBind_error, hp] at h
      subst h
      rfl

theorem proc_parse_indep (values : List String) (m : List (String × String)) :
    parseOk (get_gpu_proc_of_values values m) = parseOk (get_gpu_proc_of_values values []) := by
  rcases values with _ | ⟨v0, values⟩
  · rfl
  cases hp : pyInt? v0 with
  | none =>
      simp [get_gpu_proc_of_values, pyIntOrValueError, pyIndex, pyBind_ok, pyBind_error, hp]
  | some n =>
      rcases values with _ | ⟨v1, values⟩
      · simp [get_gpu_proc_of_values, pyIntOrValueError, pyIndex, pyBind_ok, pyBind_error, hp]
      rcases values with _ | ⟨v2, values⟩
      · simp [get_gpu_proc_of_values, pyIntOrValueError, pyIndex, pyBind_ok, pyBind_error, hp]
      rcases values with _ | ⟨v3, values⟩
      · simp [get_gpu_proc_of_values, pyIntOrValueError, pyIndex, pyBind_ok, pyBind_error, hp]
      rcases values with _ | ⟨v4, values⟩
      · simp [get_gpu_proc_of_values, pyIntOrValueError, pyIndex, pyBind_ok, pyBind_error, hp]
      simp [get_gpu_proc_of_values, pyIntOrValueError, pyIndex, pyBind_ok, pyBind_error, hp,
        parseOk]

/-- C7: a process whose GPU UUID is a key of the UUID-to-index map receives
that map's index as its GPU index, a process whose UUID is absent receives
the sentinel `-1`, and whether enrichment raises does not depend on the map
(in particular it never raises because a UUID is absent). -/
theorem proc_enrichment (line : String) (m : List (String × String)) (p : GPUProcess)
    (v : String) :
    (get_gpu_proc line m = Except.ok p →
      (m.lookup p.gpu_uuid = some v → p.gpu_id = PyVal.str v) ∧
      (m.lookup p.gpu_uuid = none → p.gpu_id = PyVal.int (-1))) ∧
    parseOk (get_gpu_proc line m) = parseOk (get_gpu_proc line []) := by
  constructor
  · intro h
    have hid := get_gpu_proc_ok_gpu_id (splitLine line) m p h
    constructor
    · intro hl
      rw [hl] at hid
      exact hid
    · intro hl
      rw [hl] at hid
      exact hid
  · exact proc_parse_indep (splitLine line) m

/-- Witness for C7 at the specification's worked process line, under the
singleton map containing its UUID and under the empty map. -/
theorem proc_enrichment_witness :
    procRec.gpu_id = PyVal.str "0" ∧
    procRecUnmapped.gpu_id = PyVal.int (-1) ∧
    parseOk (get_gpu_proc procLine [("GPU-abc", "0")]) = parseOk (get_gpu_proc procLine []) :=
  ⟨((proc_enrichment procLine [("GPU-abc", "0")] procRec "0").1 (by decide)).1 (by decide),
   ((proc_enrichment procLine [] procRecUnmapped "0").1 (by decide)).2 (by decide),
   (proc_enrichment procLine [("GPU-abc", "0")] procRec "0").2⟩

/-! ### C8 -/

/-- C8: the `ls` pipeline sorts the filtered records ascending by the
chosen key and then keeps at most `limit` records from the front.  The
sort is stable (any subsequence already ordered by the key survives as a
subsequence of the result) and idempotent (sorting an already-sorted-by-key
collection reproduces the same order); limit `0` yields the empty result, a
limit at least the collection size yields the whole collection, and the
limited result is an initial segment of the sorted collection of length at
most `limit`. -/
theorem sort_limit_spec (key : SortKey) (l c : List GPU) (n : ℕ)
    (gpus : List GPU) (opts : AvailOpts) :
    ls_sorted_limited gpus opts key n
        = take n (sortGpus key (get_available_gpus gpus opts)) ∧
    (c.Pairwise (sortKeyLe key) → List.Sublist c l → List.Sublist c (sortGpus key l)) ∧
    (List.Sorted (sortKeyLe key) l → sortGpus key l = l) ∧
    take 0 (sortGpus key l) = [] ∧
    (l.length ≤ n → take n (sortGpus key l) = sortGpus key l) ∧
    (take n (sortGpus key l)).length ≤ n ∧
    take n (sortGpus key l) ++ List.drop n (sortGpus key l) = sortGpus key l := by
  refine ⟨rfl, fun hp hs => List.sublist_insertionSort hp hs, fun hs => hs.insertionSort_eq,
    rfl, fun hn => ?_, ?_, List.take_append_drop n _⟩
  · apply List.take_of_length_le
    rw [sortGpus, List.length_insertionSort]
    exact hn
  · simp only [take, List.length_take]
    omega

/-- Witness for C8 on a concrete sorted two-record collection. -/
theorem sort_limit_spec_witness :
    List.Sublist [gpuId10, gpuId2] (sortGpus SortKey.id [gpuId10, gpuId2]) ∧
    sortGpus SortKey.id [gpuId10, gpuId2] = [gpuId10, gpuId2] ∧
    take 5 (sortGpus SortKey.id [gpuId10, gpuId2]) = sortGpus SortKey.id [gpuId10, gpuId2] :=
  ⟨(sort_limit_spec SortKey.id [gpuId10, gpuId2] [gpuId10, gpuId2] 5 [] {}).2.1 (by decide)
      (List.Sublist.refl _),
   (sort_limit_spec SortKey.id [gpuId10, gpuId2] [gpuId10, gpuId2] 5 [] {}).2.2.1 (by decide),
   (sort_limit_spec SortKey.id [gpuId10, gpuId2] [gpuId10, gpuId2] 5 [] {}).2.2.2.2.1 (by decide)⟩
